import Mathlib

/-!
Shallow embedding of the `lanc-standards` template code
(`examples/health-endpoints.js`, `examples/error-handlers.js`,
`examples/server-setup.js`) together with the pieces of the runtime the
templates lean on (JavaScript `Date.prototype.toISOString`, `process.env`
lookup with `||` defaulting).

Check results and statuses are plain strings, exactly as in the JavaScript
source.  A JS object literal used as a map is embedded as an association
list `List (String × String)` in insertion order; `Object.values(o).some`
and `.every` become `List.any` / `List.all` over the second components.
-/

/-- A calendar instant, the data rendered by `Date.prototype.toISOString`.
Modelled from the spec: the JavaScript runtime's `Date`, which is not part
of this repository; only its ISO rendering is needed here.  Fields are the
UTC components, `year` restricted by rendering to four digits. -/
structure DateTime where
  year : Nat
  month : Nat
  day : Nat
  hour : Nat
  minute : Nat
  second : Nat
  ms : Nat
deriving DecidableEq, Repr

/-- The decimal digit character of `n % 10`. -/
def digitChar (n : Nat) : Char :=
  Char.ofNat (48 + n % 10)

/-- Two-digit zero-padded decimal rendering (for in-range month, day,
hour, minute, second this is exactly the JS padding). -/
def pad2 (n : Nat) : List Char :=
  [digitChar (n / 10), digitChar n]

/-- Three-digit zero-padded decimal rendering of the milliseconds. -/
def pad3 (n : Nat) : List Char :=
  [digitChar (n / 100), digitChar (n / 10), digitChar n]

/-- Four-digit zero-padded decimal rendering of the year. -/
def pad4 (n : Nat) : List Char :=
  [digitChar (n / 1000), digitChar (n / 100), digitChar (n / 10), digitChar n]

/-- Modelled from the spec: JavaScript `new Date().toISOString()`, the
timestamp formatter every template response uses; renders
`YYYY-MM-DDTHH:MM:SS.mmmZ`. -/
def toISOString (d : DateTime) : String :=
  String.mk (pad4 d.year ++ '-' :: pad2 d.month ++ '-' :: pad2 d.day ++
    'T' :: pad2 d.hour ++ ':' :: pad2 d.minute ++ ':' :: pad2 d.second ++
    '.' :: pad3 d.ms ++ ['Z'])

/-- Recogniser for the 24-character ISO-8601 shape
`YYYY-MM-DDTHH:MM:SS.mmmZ`: fixed separators, digits everywhere else. -/
def isISO8601 (s : String) : Bool :=
  match s.toList with
  | [y1, y2, y3, y4, '-', m1, m2, '-', d1, d2, 'T', h1, h2, ':', n1, n2,
     ':', s1, s2, '.', f1, f2, f3, 'Z'] =>
    [y1, y2, y3, y4, m1, m2, d1, d2, h1, h2, n1, n2, s1, s2, f1, f2,
     f3].all Char.isDigit
  | _ => false

/-- The process environment: `process.env` maps a variable name to its
string value when set. -/
def Env : Type := String → Option String

/-- `process.env.KEY || dflt`: JS `||` falls through on `undefined` and on
the empty string (both falsy). -/
def envOr (e : Env) (key dflt : String) : String :=
  match e key with
  | some v => if v == "" then dflt else v
  | none => dflt

/-- `process.env.NODE_ENV === 'production'` (strict equality, no
defaulting), as in the global error handler of `error-handlers.js`. -/
def isProductionEnv (e : Env) : Bool :=
  e "NODE_ENV" == some "production"

/-- The spec's `CheckResult` enumeration
(`{ready, not_ready, error, not_configured, degraded, warning}`), the
domain the aggregation claims quantify over. -/
inductive CheckResult where
  | ready
  | not_ready
  | error
  | not_configured
  | degraded
  | warning
deriving DecidableEq, Repr

/-- The string a check function returns for each `CheckResult`, as used
throughout `health-endpoints.js`. -/
def CheckResult.toStr : CheckResult → String
  | .ready => "ready"
  | .not_ready => "not_ready"
  | .error => "error"
  | .not_configured => "not_configured"
  | .degraded => "degraded"
  | .warning => "warning"

/-- Render a spec-level check mapping into the string mapping the handler
code consumes. -/
def renderChecks (checks : List (String × CheckResult)) :
    List (String × String) :=
  checks.map (fun kv => (kv.1, kv.2.toStr))

/-- `health-endpoints.js` lines 14-16: some check value is `'error'` or
`'failed'`. -/
def hasErrors (checks : List (String × String)) : Bool :=
  checks.any (fun kv => kv.2 == "error" || kv.2 == "failed")

/-- `health-endpoints.js` lines 17-19: some check value is `'degraded'`
or `'warning'`. -/
def hasWarnings (checks : List (String × String)) : Bool :=
  checks.any (fun kv => kv.2 == "degraded" || kv.2 == "warning")

/-- `health-endpoints.js` line 21: the overall status reduction. -/
def overallStatus (checks : List (String × String)) : String :=
  if hasErrors checks then "error"
  else if hasWarnings checks then "degraded"
  else "healthy"

/-- The spec's Status Aggregator, written from the spec's words (for the
refinement claim C1): any `error` forces overall `error`; otherwise any
`degraded`/`warning` forces `degraded`; otherwise `healthy`. -/
def specAggregate (checks : List (String × CheckResult)) : String :=
  if checks.any (fun kv => kv.2 == CheckResult.error) then "error"
  else if checks.any
      (fun kv => kv.2 == CheckResult.degraded || kv.2 == CheckResult.warning)
    then "degraded"
  else "healthy"

/-- The JSON body of `GET /health` (`health-endpoints.js` lines 23-40).
Fields absent on the catch path are `Option`s; `uptime` is carried through
unchanged (`process.uptime()` is opaque to the handler). -/
structure HealthBody where
  status : String
  service : String
  version : Option String
  timestamp : String
  environment : Option String
  uptime : Option Nat
  checks : Option (List (String × String))
  notes : Option (Option String)
  error : Option String
deriving DecidableEq, Repr

/-- `GET /health` (`health-endpoints.js` lines 5-42).  The template
hard-codes placeholder check values ("Replace with actual ... check"), so
the gathered check mapping is a parameter; a throw anywhere in the try
block is the `Except.error` case and lands in the catch branch (lines
33-41).  Returns (HTTP status code, body). -/
def healthHandler (env : Env) (uptime : Nat) (now : DateTime)
    (gathered : Except String (List (String × String))) : Nat × HealthBody :=
  match gathered with
  | .ok checks =>
    let status := overallStatus checks
    ((if status == "error" then 503 else 200),
      { status := status
        service := "Your Service Name"
        version := some (envOr env "npm_package_version" "1.0.0")
        timestamp := toISOString now
        environment := some (envOr env "NODE_ENV" "development")
        uptime := some uptime
        checks := some checks
        notes := some (if status == "degraded" then some "Some services degraded" else none)
        error := none })
  | .error msg =>
    (503,
      { status := "error"
        service := "Your Service Name"
        version := none
        timestamp := toISOString now
        environment := none
        uptime := none
        checks := none
        notes := none
        error := some msg })

/-- The JSON body of `GET /health/readiness` (`health-endpoints.js`
lines 57-69). -/
structure ReadinessBody where
  status : String
  service : String
  timestamp : String
  checks : Option (List (String × String))
  error : Option String
deriving DecidableEq, Repr

/-- `health-endpoints.js` lines 52-54: every check value is `'ready'` or
`'not_configured'`. -/
def isReady (checks : List (String × String)) : Bool :=
  checks.all (fun kv => kv.2 == "ready" || kv.2 == "not_configured")

/-- `GET /health/readiness` (`health-endpoints.js` lines 45-71).  The two
checks run sequentially (`await checkDatabase()` then
`await checkDependencies()`); a throw from either is its `Except.error`
case and reaches the catch branch (lines 63-70).  Returns (code, body). -/
def readinessHandler (now : DateTime) (db deps : Except String String) :
    Nat × ReadinessBody :=
  match db with
  | .error msg =>
    (200, { status := "not ready", service := "Your Service Name",
            timestamp := toISOString now, checks := none, error := some msg })
  | .ok dbv =>
    match deps with
    | .error msg =>
      (200, { status := "not ready", service := "Your Service Name",
              timestamp := toISOString now, checks := none, error := some msg })
    | .ok depsv =>
      let checks := [("database", dbv), ("dependencies", depsv)]
      (200, { status := if isReady checks then "ready" else "not ready",
              service := "Your Service Name",
              timestamp := toISOString now, checks := some checks,
              error := none })

/-- The JSON body of `GET /health/liveness` (`health-endpoints.js`
lines 75-80). -/
structure LivenessBody where
  status : String
  service : String
  uptime : Nat
  timestamp : String
deriving DecidableEq, Repr

/-- `GET /health/liveness` (`health-endpoints.js` lines 74-81).  The
handler is given the check registry (name, result-or-thrown-error) only so
that independence from it can be stated; the source handler body mentions
no check at all. -/
def livenessHandler (_registry : List (String × Except String String))
    (uptime : Nat) (now : DateTime) : Nat × LivenessBody :=
  (200, { status := "alive", service := "Your Service Name",
          uptime := uptime, timestamp := toISOString now })

/-- The JSON body of the 404 handler (`error-handlers.js`): the
`availableEndpoints` object is a mapping category → (endpoint →
description). -/
structure NotFoundBody where
  error : String
  message : String
  availableEndpoints : List (String × List (String × String))
  timestamp : String
deriving DecidableEq, Repr

/-- The `app.use('*', ...)` unmatched-route handler of
`error-handlers.js`. Returns (code, body). -/
def notFoundHandler (method originalUrl : String) (now : DateTime) :
    Nat × NotFoundBody :=
  (404,
    { error := "Endpoint not found"
      message := "The endpoint " ++ method ++ " " ++ originalUrl ++ " does not exist"
      availableEndpoints :=
        [("ui", [("GET /", "Service information or demo UI")]),
         ("health",
          [("GET /health", "Comprehensive health check"),
           ("GET /health/readiness", "Service readiness probe"),
           ("GET /health/liveness", "Service liveness probe")]),
         ("api",
          [("POST /api/endpoint", "Description of your API endpoint"),
           ("GET /api/resource", "Description of your resource endpoint")]),
         ("webhooks",
          [("POST /webhook/type", "Description of your webhook endpoint")])]
      timestamp := toISOString now })

/-- The originating error as the global error handler sees it:
`err.message` and `err.stack`. -/
structure ErrInfo where
  message : String
  stack : String
deriving DecidableEq, Repr

/-- The request data the error middleware reads: method, original URL,
`user-agent` header, client ip, and the `x-request-id` header. -/
structure ReqInfo where
  method : String
  originalUrl : String
  userAgent : Option String
  ip : String
  xRequestId : Option String
deriving DecidableEq, Repr

/-- The operator log entry the global error handler writes
(`error-handlers.js`, the `console.error` object). -/
structure LogEntry where
  error : String
  stack : String
  method : String
  url : String
  timestamp : String
  userAgent : Option String
  ip : String
deriving DecidableEq, Repr

/-- The client-visible body of the global error handler
(`error-handlers.js`, the `res.status(500).json` object). -/
structure ErrorBody where
  error : String
  message : String
  timestamp : String
  requestId : Option String
deriving DecidableEq, Repr

/-- The `app.use((err, req, res, next) => ...)` global error handler of
`error-handlers.js`: one structured log entry plus one generic response.
Returns (log entry, (code, body)). -/
def globalErrorHandler (env : Env) (err : ErrInfo) (req : ReqInfo)
    (now : DateTime) : LogEntry × (Nat × ErrorBody) :=
  ({ error := err.message
     stack := err.stack
     method := req.method
     url := req.originalUrl
     timestamp := toISOString now
     userAgent := req.userAgent
     ip := req.ip },
   (500,
    { error := "Internal Server Error"
      message := "An unexpected error occurred"
      timestamp := toISOString now
      requestId := if isProductionEnv env then req.xRequestId else none }))

/-- The JSON body of the root endpoint (`server-setup.js` lines 38-45). -/
structure RootBody where
  message : String
  version : String
  timestamp : String
  environment : String
deriving DecidableEq, Repr

/-- `server-setup.js` line 14: `SERVICE_NAME` is computed once, from the
environment as it is at process start. -/
def serverServiceName (envAtStart : Env) : String :=
  envOr envAtStart "SERVICE_NAME" "LANC Service"

/-- The `GET /` root endpoint (`server-setup.js` lines 38-45): `message`
uses the startup-time `SERVICE_NAME` constant, while `version` and
`environment` re-read `process.env` on each request. -/
def rootHandler (serviceName : String) (envAtRequest : Env)
    (now : DateTime) : RootBody :=
  { message := serviceName ++ " is running"
    version := envOr envAtRequest "npm_package_version" "1.0.0"
    timestamp := toISOString now
    environment := envOr envAtRequest "NODE_ENV" "development" }

/-- Modelled from the spec: the Check Registry entry of spec 4.1, missing
from `src/` (the template's `checkDatabase` / `checkDependencies` are
placeholders with no timeout machinery).  A registered check has a name,
an execution timeout, and one execution is summarised by how long it runs
(`duration`) and what it returns or throws (`outcome`). -/
structure RegisteredCheck where
  name : String
  timeout : Nat
  duration : Nat
  outcome : Except String String
deriving Repr

/-- Modelled from the spec: running one registered check.  A check that
does not complete within its timeout is treated as `error`; a check that
throws is caught locally and recorded as `error`. -/
def runCheck (c : RegisteredCheck) : String :=
  if c.timeout < c.duration then "error"
  else
    match c.outcome with
    | .ok r => r
    | .error _ => "error"

/-- Modelled from the spec: running every registered check and collecting
the per-check results for aggregation. -/
def runAllChecks (cs : List RegisteredCheck) : List (String × String) :=
  cs.map (fun c => (c.name, runCheck c))

theorem digitChar_isDigit (n : Nat) : (digitChar n).isDigit = true := by
  unfold digitChar
  have h : n % 10 < 10 := Nat.mod_lt n (by decide)
  revert h
  generalize n % 10 = m
  intro h
  interval_cases m <;> decide

/-- `toISOString` always produces the 24-character ISO-8601 shape. -/
theorem toISOString_iso (d : DateTime) : isISO8601 (toISOString d) = true := by
  simp [isISO8601, toISOString, pad4, pad3, pad2, digitChar_isDigit]

theorem list_any_map {α β : Type} (f : α → β) (p : β → Bool) (l : List α) :
    (l.map f).any p = l.any (fun a => p (f a)) := by
  induction l with
  | nil => rfl
  | cons a t ih => simp [ih]

theorem hasErrors_render (checks : List (String × CheckResult)) :
    hasErrors (renderChecks checks) =
      checks.any (fun kv => kv.2 == CheckResult.error) := by
  unfold hasErrors renderChecks
  rw [list_any_map]
  apply congrArg
  funext kv
  obtain ⟨k, v⟩ := kv
  cases v <;> rfl

theorem hasWarnings_render (checks : List (String × CheckResult)) :
    hasWarnings (renderChecks checks) =
      checks.any
        (fun kv => kv.2 == CheckResult.degraded || kv.2 == CheckResult.warning) := by
  unfold hasWarnings renderChecks
  rw [list_any_map]
  apply congrArg
  funext kv
  obtain ⟨k, v⟩ := kv
  cases v <;> rfl

/-- C1: for every mapping of check names to check results, the overall
status computed by the `GET /health` handler equals the spec's strict
reduction: any `error` forces overall `error`; otherwise any
`degraded`/`warning` forces `degraded`; otherwise (in particular when
every value is `ready` or `not_configured`) `healthy`. -/
theorem c1_aggregator_strict_reduction (checks : List (String × CheckResult)) :
    overallStatus (renderChecks checks) = specAggregate checks := by
  unfold overallStatus specAggregate
  rw [hasErrors_render, hasWarnings_render]

/-- C3: the global error handler logs the full diagnostic context
(originating message, stack, method, path, timestamp) for the operator,
while the client-visible body holds only the generic texts, the timestamp
and the request-correlation id — so for any two internal errors the client
bodies coincide apart from the timestamp, and the body never depends on
the error's message or stack. -/
theorem c3_error_handler_no_leak (env : Env) (req : ReqInfo)
    (e1 e2 : ErrInfo) (t1 t2 : DateTime) :
    (globalErrorHandler env e1 req t1).1.error = e1.message ∧
    (globalErrorHandler env e1 req t1).1.stack = e1.stack ∧
    (globalErrorHandler env e1 req t1).1.method = req.method ∧
    (globalErrorHandler env e1 req t1).1.url = req.originalUrl ∧
    (globalErrorHandler env e1 req t1).1.timestamp = toISOString t1 ∧
    (globalErrorHandler env e1 req t1).2.2.error = "Internal Server Error" ∧
    (globalErrorHandler env e1 req t1).2.2.message = "An unexpected error occurred" ∧
    (globalErrorHandler env e1 req t1).2.2 =
      { (globalErrorHandler env e2 req t2).2.2 with timestamp := toISOString t1 } := by
  exact ⟨rfl, rfl, rfl, rfl, rfl, rfl, rfl, rfl⟩

/-- C4: the readiness handler signals transport-level success (200) on
every execution, including those in which a check function throws; the
ready/not-ready distinction lives only in the body's status field. -/
theorem c4_readiness_always_200 (now : DateTime)
    (db deps : Except String String) :
    (readinessHandler now db deps).1 = 200 := by
  cases db <;> cases deps <;> rfl

/-- C5: the liveness handler returns status `alive` with transport
success 200 and reports the process uptime, and its entire output is
independent of the check registry's contents and failures — it invokes
no dependency check. -/
theorem c5_liveness_independent
    (r r2 : List (String × Except String String)) (uptime : Nat)
    (now : DateTime) :
    livenessHandler r uptime now = livenessHandler r2 uptime now ∧
    (livenessHandler r uptime now).1 = 200 ∧
    (livenessHandler r uptime now).2.status = "alive" ∧
    (livenessHandler r uptime now).2.uptime = uptime := by
  exact ⟨rfl, rfl, rfl, rfl⟩

/-- C6: for every unmatched request the 404 handler returns code 404 with
a body whose `availableEndpoints` enumerates exactly the categories ui,
health, api and webhooks, and whose timestamp is ISO-8601 formatted. -/
theorem c6_not_found_discovery (method url : String) (now : DateTime) :
    (notFoundHandler method url now).1 = 404 ∧
    (notFoundHandler method url now).2.availableEndpoints.map Prod.fst =
      ["ui", "health", "api", "webhooks"] ∧
    (notFoundHandler method url now).2.error = "Endpoint not found" ∧
    isISO8601 (notFoundHandler method url now).2.timestamp = true := by
  exact ⟨rfl, rfl, rfl, toISOString_iso now⟩

/-- C10: when the comprehensive-health or readiness handler body itself
throws, the catch branch puts the thrown error's raw message under the
body's `error` field and omits the checks mapping. -/
theorem c10_catch_exposes_message (env : Env) (u : Nat) (now : DateTime)
    (msg d : String) :
    (healthHandler env u now (.error msg)).2.error = some msg ∧
    (healthHandler env u now (.error msg)).2.checks = none ∧
    (readinessHandler now (.error msg) (.ok d)).2.error = some msg ∧
    (readinessHandler now (.error msg) (.ok d)).2.checks = none ∧
    (readinessHandler now (.ok d) (.error msg)).2.error = some msg ∧
    (readinessHandler now (.ok d) (.error msg)).2.checks = none := by
  exact ⟨rfl, rfl, rfl, rfl, rfl, rfl⟩

/-- C2: on every execution of `GET /health` the transport code is 503
exactly when the body's overall status is `error`, and 200 otherwise;
in particular `{database: ready, external_api: error}` yields status
`error` with 503, and `{database: ready, dependencies: not_configured}`
yields `healthy` with 200. -/
theorem c2_transport_code_503_iff_error (env : Env) (u : Nat)
    (now : DateTime) (g : Except String (List (String × String))) :
    ((healthHandler env u now g).1 = 503 ↔
      (healthHandler env u now g).2.status = "error") ∧
    ((healthHandler env u now g).2.status ≠ "error" →
      (healthHandler env u now g).1 = 200) ∧
    (healthHandler env u now
      (.ok [("database", "ready"), ("external_api", "error")])).2.status = "error" ∧
    (healthHandler env u now
      (.ok [("database", "ready"), ("external_api", "error")])).1 = 503 ∧
    (healthHandler env u now
      (.ok [("database", "ready"), ("dependencies", "not_configured")])).2.status = "healthy" ∧
    (healthHandler env u now
      (.ok [("database", "ready"), ("dependencies", "not_configured")])).1 = 200 := by
  refine ⟨?_, ?_, rfl, rfl, rfl, rfl⟩
  · cases g with
    | error msg => simp [healthHandler]
    | ok checks =>
      by_cases h : overallStatus checks = "error"
      · simp [healthHandler, h]
      · have hb : (overallStatus checks == "error") = false :=
          beq_eq_false_iff_ne.mpr h
        simp [healthHandler, hb, h]
  · cases g with
    | error msg =>
      intro hne
      exact absurd rfl hne
    | ok checks =>
      intro hne
      have h : ¬ overallStatus checks = "error" := by
        simpa [healthHandler] using hne
      have hb : (overallStatus checks == "error") = false :=
        beq_eq_false_iff_ne.mpr h
      simp [healthHandler, hb]

/-- C7 (spec-modelled Check Registry): a registered check carries an
execution timeout by construction; a check exceeding its timeout is
recorded as `error` for that check only, every check still gets its own
entry, and the comprehensive report still completes with the full check
mapping. -/
theorem c7_timeout_recorded_error (env : Env) (u : Nat) (now : DateTime)
    (cs : List RegisteredCheck) (c : RegisteredCheck) (hc : c ∈ cs)
    (ht : c.timeout < c.duration) :
    runCheck c = "error" ∧
    (c.name, "error") ∈ runAllChecks cs ∧
    (runAllChecks cs).map Prod.fst = cs.map RegisteredCheck.name ∧
    (∀ c2 ∈ cs, (c2.name, runCheck c2) ∈ runAllChecks cs) ∧
    (healthHandler env u now (.ok (runAllChecks cs))).2.checks =
      some (runAllChecks cs) := by
  have hrc : runCheck c = "error" := by
    unfold runCheck
    rw [if_pos ht]
  refine ⟨hrc, ?_, ?_, ?_, rfl⟩
  · have hmem : (c.name, runCheck c) ∈ runAllChecks cs :=
      List.mem_map_of_mem (fun c => (c.name, runCheck c)) hc
    rw [hrc] at hmem
    exact hmem
  · unfold runAllChecks
    rw [List.map_map]
    rfl
  · intro c2 hc2
    exact List.mem_map_of_mem _ hc2

/-- A concrete registry: a database check that takes 250ms against a
100ms timeout, and a fast dependencies check. -/
def sampleChecks : List RegisteredCheck :=
  [⟨"database", 100, 250, Except.ok "ready"⟩,
   ⟨"dependencies", 100, 5, Except.ok "ready"⟩]

/-- Witness for C7 at the concrete registry `sampleChecks`. -/
theorem c7_timeout_recorded_error_witness :
    runCheck ⟨"database", 100, 250, Except.ok "ready"⟩ = "error" ∧
    ("database", "error") ∈ runAllChecks sampleChecks ∧
    (runAllChecks sampleChecks).map Prod.fst = ["database", "dependencies"] := by
  have h := c7_timeout_recorded_error (fun _ => none) 0
    ⟨2025, 11, 1, 0, 0, 0, 0⟩ sampleChecks
    ⟨"database", 100, 250, Except.ok "ready"⟩
    (List.mem_cons_self _ _) (by decide)
  exact ⟨h.1, h.2.1, h.2.2.1⟩

/-- An environment with nothing set. -/
def envA : Env := fun _ => none

/-- An environment with only `NODE_ENV=production` set. -/
def envB : Env := fun k => if k == "NODE_ENV" then some "production" else none

/-- A fixed instant used for concrete evaluations. -/
def sampleTime : DateTime := ⟨2025, 11, 1, 12, 30, 45, 123⟩

/-- C8 counterexample: the handlers re-read `process.env` on every
request, so changing `NODE_ENV` mid-process (from unset to `production`)
changes the `GET /health` response of an otherwise identical request. -/
theorem c8_config_counterexample :
    (healthHandler envA 0 sampleTime (.ok [("database", "ready")])).2.environment ≠
      (healthHandler envB 0 sampleTime (.ok [("database", "ready")])).2.environment := by
  decide

/-- C8 amended: the service name is read once at process start — the root
endpoint's message is unaffected by later environment changes — but the
environment label is read from `process.env` on each request, so a
mid-process change to `NODE_ENV` changes the response of the
comprehensive-health operation. -/
theorem c8_config_amended (env0 e1 e2 : Env) (u : Nat) (t : DateTime)
    (checks : List (String × String)) :
    (rootHandler (serverServiceName env0) e1 t).message =
      (rootHandler (serverServiceName env0) e2 t).message ∧
    (healthHandler e1 u t (.ok checks)).2.environment =
      some (envOr e1 "NODE_ENV" "development") ∧
    (envOr e1 "NODE_ENV" "development" ≠ envOr e2 "NODE_ENV" "development" →
      (healthHandler e1 u t (.ok checks)).2 ≠
        (healthHandler e2 u t (.ok checks)).2) := by
  refine ⟨rfl, rfl, ?_⟩
  intro hne heq
  apply hne
  have h2 := congrArg HealthBody.environment heq
  exact Option.some.inj h2

/-- Witness for C8 amended at the concrete environments `envA`, `envB`. -/
theorem c8_config_amended_witness :
    (rootHandler (serverServiceName envA) envA sampleTime).message =
      (rootHandler (serverServiceName envA) envB sampleTime).message ∧
    (healthHandler envA 0 sampleTime (.ok [("database", "ready")])).2 ≠
      (healthHandler envB 0 sampleTime (.ok [("database", "ready")])).2 := by
  have h := c8_config_amended envA envA envB 0 sampleTime [("database", "ready")]
  exact ⟨h.1, h.2.2 (by decide)⟩

/-- C9: for the check results returned by the two readiness checks, the
readiness body's status is `ready` exactly when every value is `ready` or
`not_configured`, and `not ready` otherwise. -/
theorem c9_readiness_status_iff (now : DateTime) (d p : String) :
    ((readinessHandler now (.ok d) (.ok p)).2.status = "ready" ↔
      (d = "ready" ∨ d = "not_configured") ∧
        (p = "ready" ∨ p = "not_configured")) ∧
    ((readinessHandler now (.ok d) (.ok p)).2.status = "ready" ∨
      (readinessHandler now (.ok d) (.ok p)).2.status = "not ready") := by
  have hb : (isReady [("database", d), ("dependencies", p)] = true) ↔
      ((d = "ready" ∨ d = "not_configured") ∧
        (p = "ready" ∨ p = "not_configured")) := by
    simp [isReady]
  have hstat : (readinessHandler now (.ok d) (.ok p)).2.status =
      if isReady [("database", d), ("dependencies", p)] then "ready"
      else "not ready" := rfl
  cases hr : isReady [("database", d), ("dependencies", p)] with
  | false =>
    have hs : (readinessHandler now (.ok d) (.ok p)).2.status = "not ready" := by
      rw [hstat, hr]
      rfl
    rw [hs]
    refine ⟨iff_of_false (by decide) ?_, Or.inr rfl⟩
    intro h
    have htrue := hb.mpr h
    rw [hr] at htrue
    exact Bool.false_ne_true htrue
  | true =>
    have hs : (readinessHandler now (.ok d) (.ok p)).2.status = "ready" := by
      rw [hstat, hr]
      rfl
    rw [hs]
    exact ⟨iff_of_true rfl (hb.mp hr), Or.inl rfl⟩
